import Mathlib

/-
Verification of the cache-backed generation pipeline of the school research
assistant: the SimpleCache (src/school_intelligence_service.py), the
ConversationChain (src/conversation_chain.py) and the orchestrating
SchoolIntelligenceService.get_school_intelligence.

Modelling conventions:
  - time is a rational number of hours (datetime.now values become a `now`
    parameter threaded through each call); CACHE_TTL_HOURS = 24 as in
    config_v2.py;
  - the file system under the cache directory is a function from cache-key
    strings to optional records (one JSON file per key);
  - the raw JSON object returned by the LLM chain is a RawResponse value and
    the outcome of the chain invocation an Except value: .error models the
    chain raising, .ok carries the parsed JSON dict;
  - floats (relevance scores) are modelled as rationals.
-/

namespace SchoolIntel

/-- Modelled from the spec: models_v2.py is not under src/. The spec fixes the
priority of a GenerationResult to the enum of the four literals HIGH, MEDIUM,
LOW, UNKNOWN, and conversation_chain.py line 136 constructs a response with
the literal UNKNOWN, so the pydantic field accepts exactly these values. -/
inductive Priority
  | HIGH
  | MEDIUM
  | LOW
  | UNKNOWN
deriving DecidableEq, Repr

/-- Modelled from the spec: pydantic validation of the sales_priority string
against the four-literal enum; any other string raises a validation error. -/
def parsePriority (s : String) : Option Priority :=
  if s = "HIGH" then some .HIGH
  else if s = "MEDIUM" then some .MEDIUM
  else if s = "LOW" then some .LOW
  else if s = "UNKNOWN" then some .UNKNOWN
  else none

/-- Modelled from the spec: models_v2.py is not under src/. StarterItem has
topic and detail (required strings), an optional source, and a required
relevance_score in [0,1] (a float in the source, a rational here). -/
structure ConversationStarter where
  topic : String
  detail : String
  source : Option String
  relevance_score : ℚ
deriving DecidableEq, Repr

/-- A raw JSON dict for one starter item, as produced by the JsonOutputParser:
each schema field may be present or absent. -/
structure RawStarter where
  topic : Option String
  detail : Option String
  source : Option String
  relevance_score : Option ℚ
deriving DecidableEq, Repr

/-- Modelled from the spec: pydantic construction ConversationStarter(**s)
from a raw dict; fails (raises) when a required field is missing or the
relevance score is outside [0,1]. -/
def parseStarter (r : RawStarter) : Option ConversationStarter :=
  match r.topic, r.detail, r.relevance_score with
  | some t, some d, some rs =>
      if 0 ≤ rs ∧ rs ≤ 1 then some ⟨t, d, r.source, rs⟩ else none
  | _, _, _ => none

/-- The list comprehension [ConversationStarter(**s) for s in l]: the first
item failing validation raises, failing the whole comprehension. -/
def parseStarters : List RawStarter → Option (List ConversationStarter)
  | [] => some []
  | r :: rest =>
      match parseStarter r, parseStarters rest with
      | some c, some cs => some (c :: cs)
      | _, _ => none

/-- The pydantic model_dump of a ConversationStarter: every field is emitted. -/
def dumpStarter (c : ConversationStarter) : RawStarter :=
  ⟨some c.topic, some c.detail, c.source, some c.relevance_score⟩

/-- The top-level conversation_starters value of the raw model response: the
key may be absent (dict .get returns the default), hold a non-list value
(iterating it raises), or hold a list of raw item dicts. -/
inductive RawStarters
  | absent
  | malformed
  | items (l : List RawStarter)
deriving DecidableEq, Repr

/-- Result of iterating result.get with default []: an absent key yields the
empty list, a non-list value raises (none), a list is traversed. -/
def rawItemsOf : RawStarters → Option (List RawStarter)
  | .absent => some []
  | .malformed => none
  | .items l => some l

/-- The raw JSON object the chain parser hands back on a completed call
(conversation_chain.py line 113): the three keys may each be absent. -/
structure RawResponse where
  conversation_starters : RawStarters
  summary : Option String
  sales_priority : Option String
deriving DecidableEq, Repr

/-- Modelled from the spec: models_v2.py is not under src/. The
ConversationStarterResponse pydantic model: validated items, optional
summary, and a sales priority drawn from the four-literal enum. -/
structure ConversationStarterResponse where
  conversation_starters : List ConversationStarter
  summary : Option String
  sales_priority : Priority
deriving DecidableEq, Repr

/-- The degraded response built in the except branch of
ConversationChain.generate (conversation_chain.py lines 133-137). -/
def errorResponse (msg : String) : ConversationStarterResponse :=
  ⟨[], some ("Error generating insights: " ++ msg), .UNKNOWN⟩

/-- The degraded response built in the except branch of
ConversationChain.agenerate (conversation_chain.py lines 168-172). -/
def errorResponseAsync (msg : String) : ConversationStarterResponse :=
  ⟨[], some ("Error: " ++ msg), .UNKNOWN⟩

namespace ConversationChain

/-- ConversationChain.generate (conversation_chain.py lines 95-137). The
argument is the outcome of self.chain.invoke: .error e when the chain raises
(network, auth, unparsable envelope), .ok r with the parsed JSON dict
otherwise. The try block builds the response from result.get falls; every
exception (including a pydantic validation error on an item or on the
priority, and iteration over a malformed top-level value) is caught and
turned into the degraded errorResponse. -/
def generate (modelResult : Except String RawResponse) : ConversationStarterResponse :=
  match modelResult with
  | .error e => errorResponse e
  | .ok r =>
      match rawItemsOf r.conversation_starters with
      | none => errorResponse "TypeError: conversation_starters is not a list"
      | some l =>
          match parseStarters l, parsePriority (r.sales_priority.getD "MEDIUM") with
          | some cs, some p => ⟨cs, r.summary, p⟩
          | _, _ => errorResponse "ValidationError"

/-- ConversationChain.agenerate (conversation_chain.py lines 139-172):
identical logic to generate, with the shorter error summary prefix. -/
def agenerate (modelResult : Except String RawResponse) : ConversationStarterResponse :=
  match modelResult with
  | .error e => errorResponseAsync e
  | .ok r =>
      match rawItemsOf r.conversation_starters with
      | none => errorResponseAsync "TypeError: conversation_starters is not a list"
      | some l =>
          match parseStarters l, parsePriority (r.sales_priority.getD "MEDIUM") with
          | some cs, some p => ⟨cs, r.summary, p⟩
          | _, _ => errorResponseAsync "ValidationError"

end ConversationChain

/-- CACHE_TTL_HOURS from config_v2.py, in hours. -/
def CACHE_TTL_HOURS : ℚ := 24

/-- The f-string f"starters_(school_urn)" hashed by _get_cache_key
(school_intelligence_service.py line 57) before the md5 digest is taken. -/
def cacheKeyString (school_urn : String) : String := "starters_" ++ school_urn

/-- The md5 hexdigest of _get_cache_key, with the external hashlib digest
abstracted as an arbitrary function into the 128-bit digest space: the
32-character hex string is an injective encoding of a 128-bit value, so
collision questions about the hex key and about the digest coincide. -/
def get_cache_key (md5hex : String → Fin (2 ^ 128)) (school_urn : String) : Fin (2 ^ 128) :=
  md5hex (cacheKeyString school_urn)

/-- One cache file on disk (SimpleCache.set, lines 99-103): the JSON record
with the urn, the creation time and the dumped starter dicts. -/
structure CacheRecord where
  school_urn : String
  cached_at : ℚ
  starters : List RawStarter
deriving DecidableEq, Repr

/-- SimpleCache (school_intelligence_service.py lines 38-131): the enabled
flag from ENABLE_CACHE and the cache directory contents, one optional record
per key string. The md5 hexdigest step of _get_cache_key is dropped from the
store index (it is injective on distinct urns up to md5 collisions, handled
separately by get_cache_key); every claim below about the store touches a
single urn, for which the keying is exact. -/
structure SimpleCache where
  enabled : Bool
  entries : String → Option CacheRecord

/-- SimpleCache.get (lines 62-88): disabled or missing or expired entries
yield none; a present entry is returned while now - cached_at is at most the
TTL. A read error also yields none (not modelled: records here are
well-formed by construction). -/
def SimpleCache.get (c : SimpleCache) (now : ℚ) (school_urn : String) :
    Option (List RawStarter) :=
  if c.enabled = false then none
  else
    match c.entries (cacheKeyString school_urn) with
    | none => none
    | some r =>
        if CACHE_TTL_HOURS < now - r.cached_at then none
        else some r.starters

/-- SimpleCache.set (lines 90-113): a no-op returning false when disabled;
otherwise overwrites the record at the key of the urn with a freshly
timestamped record holding the dumped starters, returning true. -/
def SimpleCache.set (c : SimpleCache) (now : ℚ) (school_urn : String)
    (starters : List ConversationStarter) : SimpleCache × Bool :=
  if c.enabled = false then (c, false)
  else
    ({ c with
        entries := fun k =>
          if k = cacheKeyString school_urn then
            some ⟨school_urn, now, starters.map dumpStarter⟩
          else c.entries k }, true)

/-- Modelled from the spec: models_v2.py is not under src/. The School record
restricted to the fields the pipeline reads: the identity urn, the display
name, and the conversation_starters slot the service fills in. -/
structure School where
  urn : String
  school_name : String
  conversation_starters : List ConversationStarter
deriving DecidableEq, Repr

/-- Python truthiness of the optional cached starter list at
school_intelligence_service.py line 215: None and the empty list are falsy. -/
def pyTruthy : Option (List RawStarter) → Bool
  | none => false
  | some l => !l.isEmpty

/-- The state of a SchoolIntelligenceService: the conversation_starters
feature flag from FEATURES, the name-to-school dict of the DataLoader, and
the cache. -/
structure ServiceState where
  featureOn : Bool
  schoolsByName : String → Option School
  cache : SimpleCache

/-- SchoolIntelligenceService.get_school_intelligence
(school_intelligence_service.py lines 179-237). The modelResult argument is
the outcome the lazily built chain would produce if invoked; the returned
natural number counts model invocations (0 or 1). The Except layer carries
the one uncaught exception path: pydantic validation of cached dicts on the
hit path (lines 216-218) runs outside any try block. The generation path
never raises: ConversationChain.generate catches every exception internally,
and SimpleCache.set catches its own write errors. -/
def get_school_intelligence (svc : ServiceState) (now : ℚ)
    (modelResult : Except String RawResponse)
    (school_name : String) (force_refresh : Bool) :
    Except String (Option School × SimpleCache × ℕ) :=
  match svc.schoolsByName school_name with
  | none => .ok (none, svc.cache, 0)
  | some school =>
      if svc.featureOn = false then .ok (some school, svc.cache, 0)
      else
        let cached : Option (List RawStarter) :=
          if force_refresh then none else svc.cache.get now school.urn
        if pyTruthy cached then
          match parseStarters (cached.getD []) with
          | some items =>
              .ok (some { school with conversation_starters := items }, svc.cache, 0)
          | none => .error "ValidationError: cached starter dict"
        else
          let resp := ConversationChain.generate modelResult
          let school' := { school with conversation_starters := resp.conversation_starters }
          let cache' := (svc.cache.set now school.urn resp.conversation_starters).1
          .ok (some school', cache', 1)

/-
Concrete fixtures, used by witnesses and counterexamples. The school data
follows the test block of conversation_chain.py (lines 215-242).
-/

/-- A validated conversation starter. -/
def sampleStarter : ConversationStarter :=
  ⟨"Agency spend", "Spends 102 per pupil on agency supply", none, 1⟩

/-- A raw item dict that passes StarterItem validation. -/
def sampleRawGood : RawStarter :=
  ⟨some "Agency spend", some "Spends 102 per pupil on agency supply", none, some 1⟩

/-- A second raw item dict that passes StarterItem validation. -/
def sampleRawGood2 : RawStarter :=
  ⟨some "Financial pressure", some "Spending higher than 96.7 percent of similar schools",
    some "DfE data", some 0⟩

/-- A raw item dict that fails StarterItem validation: the required detail
field is missing. -/
def sampleRawBad : RawStarter := ⟨some "Ofsted", none, none, some 1⟩

/-- The school of the repository test block. -/
def sampleSchool : School := ⟨"100005", "Thomas Coram Centre", []⟩

/-- An enabled cache over an empty cache directory. -/
def emptyCache : SimpleCache := ⟨true, fun _ => none⟩

/-- A disabled cache (ENABLE_CACHE = False). -/
def disabledCache : SimpleCache := ⟨false, fun _ => none⟩

/-- An enabled cache holding one record for the sample school, created at
time 0 with one dumped starter. -/
def sampleCache : SimpleCache :=
  ⟨true, fun k =>
    if k = cacheKeyString "100005" then some ⟨"100005", 0, [dumpStarter sampleStarter]⟩
    else none⟩

/-- An enabled cache holding a record for the sample school whose starters
list is empty, created at time 0. -/
def emptyEntryCache : SimpleCache :=
  ⟨true, fun k =>
    if k = cacheKeyString "100005" then some ⟨"100005", 0, []⟩ else none⟩

/-- A service holding exactly the sample school, with the feature flag on and
an empty enabled cache. -/
def sampleService : ServiceState :=
  ⟨true, fun n => if n = "Thomas Coram Centre" then some sampleSchool else none, emptyCache⟩

/-
Helper lemmas about parsing, dumping and the cache.
-/

theorem parseStarter_bounds {r : RawStarter} {c : ConversationStarter}
    (h : parseStarter r = some c) :
    0 ≤ c.relevance_score ∧ c.relevance_score ≤ 1 := by
  unfold parseStarter at h
  rcases r with ⟨t, d, s, rs⟩
  rcases t with _ | t <;> rcases d with _ | d <;> rcases rs with _ | rs <;> simp at h
  rcases h with ⟨hb, rfl⟩
  simpa using hb

theorem parseStarter_dumpStarter {c : ConversationStarter}
    (h₀ : 0 ≤ c.relevance_score) (h₁ : c.relevance_score ≤ 1) :
    parseStarter (dumpStarter c) = some c := by
  simp [parseStarter, dumpStarter, h₀, h₁]

theorem parseStarters_bounds {l : List RawStarter} {cs : List ConversationStarter}
    (h : parseStarters l = some cs) :
    ∀ c ∈ cs, 0 ≤ c.relevance_score ∧ c.relevance_score ≤ 1 := by
  induction l generalizing cs with
  | nil =>
      simp [parseStarters] at h
      subst h
      simp
  | cons r rest ih =>
      unfold parseStarters at h
      rcases h₁ : parseStarter r with _ | c₀ <;> rw [h₁] at h <;>
        rcases h₂ : parseStarters rest with _ | cs₀ <;> rw [h₂] at h <;> simp at h
      subst h
      intro c hc
      rcases List.mem_cons.mp hc with rfl | hmem
      · exact parseStarter_bounds h₁
      · exact ih h₂ c hmem

theorem parseStarters_map_dump {l : List ConversationStarter}
    (h : ∀ c ∈ l, 0 ≤ c.relevance_score ∧ c.relevance_score ≤ 1) :
    parseStarters (l.map dumpStarter) = some l := by
  induction l with
  | nil => rfl
  | cons c rest ih =>
      have hc := h c (by simp)
      have hrest := ih (fun x hx => h x (by simp [hx]))
      simp only [List.map_cons, parseStarters, parseStarter_dumpStarter hc.1 hc.2, hrest]

theorem parseStarters_none_of_mem {l : List RawStarter} {b : RawStarter}
    (hmem : b ∈ l) (hbad : parseStarter b = none) :
    parseStarters l = none := by
  induction l with
  | nil => simp at hmem
  | cons r rest ih =>
      rcases List.mem_cons.mp hmem with rfl | hmem'
      · simp [parseStarters, hbad]
      · unfold parseStarters
        rcases h₁ : parseStarter r with _ | c₀
        · rfl
        · simp [ih hmem']

theorem generate_bounds (mr : Except String RawResponse) :
    ∀ c ∈ (ConversationChain.generate mr).conversation_starters,
      0 ≤ c.relevance_score ∧ c.relevance_score ≤ 1 := by
  rcases mr with e | ⟨raws, sm, pr⟩
  · simp [ConversationChain.generate, errorResponse]
  · rcases h₀ : rawItemsOf raws with _ | l
    · simp [ConversationChain.generate, h₀, errorResponse]
    · rcases h₁ : parseStarters l with _ | cs
      · simp [ConversationChain.generate, h₀, h₁, errorResponse]
      · rcases h₂ : parsePriority (pr.getD "MEDIUM") with _ | p
        · simp [ConversationChain.generate, h₀, h₁, h₂, errorResponse]
        · simp only [ConversationChain.generate, h₀, h₁, h₂]
          exact parseStarters_bounds h₁

theorem SimpleCache.get_entry {c : SimpleCache} {urn : String} {r : CacheRecord}
    (hen : c.enabled = true) (hr : c.entries (cacheKeyString urn) = some r)
    {now : ℚ} (hfresh : now - r.cached_at ≤ CACHE_TTL_HOURS) :
    c.get now urn = some r.starters := by
  simp [SimpleCache.get, hen, hr, not_lt.mpr hfresh]

theorem SimpleCache.get_expired {c : SimpleCache} {urn : String} {r : CacheRecord}
    (hr : c.entries (cacheKeyString urn) = some r)
    {now : ℚ} (hold : CACHE_TTL_HOURS < now - r.cached_at) :
    c.get now urn = none := by
  by_cases hen : c.enabled = false <;> simp [SimpleCache.get, hen, hr, hold]

theorem SimpleCache.set_entries_self {c : SimpleCache} (hen : c.enabled = true)
    (now : ℚ) (urn : String) (starters : List ConversationStarter) :
    ((c.set now urn starters).1).entries (cacheKeyString urn)
      = some ⟨urn, now, starters.map dumpStarter⟩ := by
  simp [SimpleCache.set, hen]

theorem SimpleCache.get_missing {c : SimpleCache} {urn : String}
    (hr : c.entries (cacheKeyString urn) = none) (now : ℚ) :
    c.get now urn = none := by
  by_cases hen : c.enabled = false <;> simp [SimpleCache.get, hen, hr]

theorem SimpleCache.set_keeps_enabled (c : SimpleCache) (now : ℚ) (urn : String)
    (starters : List ConversationStarter) :
    ((c.set now urn starters).1).enabled = c.enabled := by
  by_cases hen : c.enabled = false <;> simp [SimpleCache.set, hen]

/-- C4: for every entity id and time, SimpleCache.get returns the cached
payload exactly when an entry exists and now minus created_at is at most the
TTL; a read epsilon before expiry succeeds, a read epsilon after expiry is
treated as absent, and an expired or missing entry yields no value rather
than an error (SimpleCache.get is a total function into Option). Stated for
the enabled cache, whose contract this is; the disabled mode is C7. -/
theorem c4_ttl_expiry :
    ∀ (c : SimpleCache) (now : ℚ) (urn : String),
      c.enabled = true →
      ((∀ r : CacheRecord, c.entries (cacheKeyString urn) = some r →
          (c.get now urn = some r.starters ↔ now - r.cached_at ≤ CACHE_TTL_HOURS))
        ∧ (c.entries (cacheKeyString urn) = none → c.get now urn = none)
        ∧ (∀ (r : CacheRecord) (ε : ℚ), 0 < ε →
            c.entries (cacheKeyString urn) = some r →
            c.get (r.cached_at + CACHE_TTL_HOURS - ε) urn = some r.starters
            ∧ c.get (r.cached_at + CACHE_TTL_HOURS + ε) urn = none)) := by
  intro c now urn hen
  refine ⟨?_, ?_, ?_⟩
  · intro r hr
    constructor
    · intro hg
      by_contra hlt
      rw [SimpleCache.get_expired hr (not_le.mp hlt)] at hg
      exact Option.noConfusion hg
    · intro hle
      exact SimpleCache.get_entry hen hr hle
  · intro hr
    exact SimpleCache.get_missing hr now
  · intro r ε hε hr
    exact ⟨SimpleCache.get_entry hen hr (by linarith),
           SimpleCache.get_expired hr (by linarith)⟩

/-- C4 witness: a concrete enabled cache holding one record created at time 0
is read back at time 1 and reported absent at the TTL plus one hour. -/
theorem c4_ttl_expiry_witness :
    sampleCache.get 1 "100005" = some [dumpStarter sampleStarter]
    ∧ sampleCache.get (0 + CACHE_TTL_HOURS + 1) "100005" = none := by
  have h := c4_ttl_expiry sampleCache 1 "100005" rfl
  have h' := c4_ttl_expiry sampleCache (0 + CACHE_TTL_HOURS + 1) "100005" rfl
  exact ⟨(h.1 ⟨"100005", 0, [dumpStarter sampleStarter]⟩ rfl).mpr (by norm_num [CACHE_TTL_HOURS]),
         (h'.2.2 ⟨"100005", 0, [dumpStarter sampleStarter]⟩ 1 (by norm_num) rfl).2⟩

/-- C7: with the cache-enabled flag false, get reports no value for every
entity id and set persists nothing (the state is returned unchanged) and
returns false; both are total functions, so neither raises. -/
theorem c7_disabled_cache :
    ∀ (c : SimpleCache), c.enabled = false →
      ∀ (now : ℚ) (urn : String) (starters : List ConversationStarter),
        c.get now urn = none ∧ c.set now urn starters = (c, false) := by
  intro c hd now urn starters
  constructor <;> simp [SimpleCache.get, SimpleCache.set, hd]

/-- C7 witness: the disabled cache misses and refuses a write for the sample
school. -/
theorem c7_disabled_cache_witness :
    disabledCache.get 0 "100005" = none
    ∧ disabledCache.set 0 "100005" [sampleStarter] = (disabledCache, false) :=
  c7_disabled_cache disabledCache rfl 0 "100005" [sampleStarter]

/-- C8: with the cache enabled, set followed by get within the TTL window
returns exactly the serialized (model_dump) form of the stored starters, and
the serialized form parses back to the original starters (the pydantic score
bound being the one condition of the StarterItem schema). -/
theorem c8_roundtrip :
    ∀ (c : SimpleCache) (now₁ now₂ : ℚ) (urn : String)
      (starters : List ConversationStarter),
      c.enabled = true →
      now₂ - now₁ ≤ CACHE_TTL_HOURS →
      ((c.set now₁ urn starters).1.get now₂ urn = some (starters.map dumpStarter))
      ∧ ((∀ s ∈ starters, 0 ≤ s.relevance_score ∧ s.relevance_score ≤ 1) →
          parseStarters (starters.map dumpStarter) = some starters) := by
  intro c now₁ now₂ urn starters hen hfresh
  refine ⟨?_, parseStarters_map_dump⟩
  have hsen : ((c.set now₁ urn starters).1).enabled = true := by
    rw [SimpleCache.set_keeps_enabled, hen]
  exact SimpleCache.get_entry hsen (SimpleCache.set_entries_self hen now₁ urn starters) hfresh

/-- C8 witness: one starter written at time 0 into the empty enabled cache is
read back at time 1 as its dumped dict, and the dict parses back. -/
theorem c8_roundtrip_witness :
    (emptyCache.set 0 "100005" [sampleStarter]).1.get 1 "100005"
      = some ([sampleStarter].map dumpStarter)
    ∧ parseStarters ([sampleStarter].map dumpStarter) = some [sampleStarter] := by
  have h := c8_roundtrip emptyCache 0 1 "100005" [sampleStarter] rfl
    (by norm_num [CACHE_TTL_HOURS])
  exact ⟨h.1, h.2 (by norm_num [sampleStarter])⟩

/-- C9 counterexample: the claim that distinct urns always yield distinct
cache keys is false in principle for every possible digest function, because
the md5 hexdigest ranges over a finite space (2 to the 128 digests) while the
urn strings are unboundedly many: some two distinct urns must collide. The
statement quantifies over the digest function, so it refutes the claim for
the actual hashlib md5 in particular. -/
def md5KeyCollisionExists : Prop :=
  ∀ md5hex : String → Fin (2 ^ 128), ∃ u₁ u₂ : String,
    u₁ ≠ u₂ ∧ get_cache_key md5hex u₁ = get_cache_key md5hex u₂

/-- C9: refutation of injectivity of the key derivation: a collision between
two distinct urns exists for every 128-bit digest function. -/
theorem c9_counterexample : md5KeyCollisionExists := by
  intro md5hex
  obtain ⟨m, n, hmn, hf⟩ := Finite.exists_ne_map_eq_of_infinite
    (fun k : ℕ => get_cache_key md5hex (String.mk (List.replicate k 'a')))
  refine ⟨String.mk (List.replicate m 'a'), String.mk (List.replicate n 'a'), ?_, hf⟩
  intro h
  apply hmn
  have hlen := congrArg String.length h
  simpa using hlen

/-- C9 amended: the cache key is a pure, deterministic function of the urn
alone (equal urns give equal keys, whatever the digest function, and the
display name never enters), and the pre-digest string starters_ plus urn is
injective in the urn; only the final fixed-width digest step can identify
distinct urns (collision resistance, not collision freedom). -/
theorem c9_amended :
    (∀ (md5hex : String → Fin (2 ^ 128)) (u₁ u₂ : String),
        u₁ = u₂ → get_cache_key md5hex u₁ = get_cache_key md5hex u₂)
    ∧ (∀ u₁ u₂ : String, cacheKeyString u₁ = cacheKeyString u₂ ↔ u₁ = u₂) := by
  constructor
  · intro md5hex u₁ u₂ h
    rw [h]
  · intro u₁ u₂
    constructor
    · intro h
      have hd := congrArg String.data h
      simp only [cacheKeyString, String.data_append] at hd
      have := List.append_cancel_left hd
      cases u₁
      cases u₂
      exact congrArg String.mk this
    · intro h
      rw [h]

/-- C9 witness: equal urns give the equal key under a concrete digest
function, and the pre-digest strings of two concrete distinct urns differ. -/
theorem c9_amended_witness :
    get_cache_key (fun _ => (⟨0, by norm_num⟩ : Fin (2 ^ 128))) "100005"
      = get_cache_key (fun _ => (⟨0, by norm_num⟩ : Fin (2 ^ 128))) "100005"
    ∧ ¬ cacheKeyString "100005" = cacheKeyString "100006" := by
  constructor
  · exact c9_amended.1 (fun _ => ⟨0, by norm_num⟩) "100005" "100005" rfl
  · intro h
    exact absurd ((c9_amended.2 "100005" "100006").mp h) (by decide)

/-
Service-path helper lemmas: the two terminal shapes of
get_school_intelligence when the school is found and the feature is on.
-/

theorem get_school_intelligence_hit
    {svc : ServiceState} {now : ℚ} {mr : Except String RawResponse}
    {name : String} {school : School} {ds : List RawStarter}
    {items : List ConversationStarter}
    (hfind : svc.schoolsByName name = some school)
    (hfeat : svc.featureOn = true)
    (hget : svc.cache.get now school.urn = some ds)
    (hne : ds ≠ [])
    (hparse : parseStarters ds = some items) :
    get_school_intelligence svc now mr name false
      = .ok (some { school with conversation_starters := items }, svc.cache, 0) := by
  obtain ⟨x, xs, rfl⟩ := List.exists_cons_of_ne_nil hne
  simp [get_school_intelligence, hfind, hfeat, hget, pyTruthy, hparse]

theorem get_school_intelligence_generates
    {svc : ServiceState} {now : ℚ} {mr : Except String RawResponse}
    {name : String} {school : School} {force_refresh : Bool}
    (hfind : svc.schoolsByName name = some school)
    (hfeat : svc.featureOn = true)
    (hmiss : force_refresh = true ∨ pyTruthy (svc.cache.get now school.urn) = false) :
    get_school_intelligence svc now mr name force_refresh
      = .ok (some { school with
              conversation_starters := (ConversationChain.generate mr).conversation_starters },
             (svc.cache.set now school.urn
               (ConversationChain.generate mr).conversation_starters).1, 1) := by
  rcases hmiss with rfl | hm
  · simp [get_school_intelligence, hfind, hfeat, pyTruthy]
  · cases force_refresh
    · simp [get_school_intelligence, hfind, hfeat, hm]
    · simp [get_school_intelligence, hfind, hfeat, pyTruthy]

/-- A service holding the sample school with the feature on and the cache of
C4, which has a valid non-empty entry for the school. -/
def cachedService : ServiceState :=
  ⟨true, fun n => if n = "Thomas Coram Centre" then some sampleSchool else none, sampleCache⟩

/-- A service holding the sample school with the feature on and a cache whose
entry for the school has an empty starters list. -/
def emptyEntryService : ServiceState :=
  ⟨true, fun n => if n = "Thomas Coram Centre" then some sampleSchool else none, emptyEntryCache⟩

/-- The cache state left behind by a generation that produced no starters:
one record for the sample school with an empty list. -/
def c2FailCache : SimpleCache := (emptyCache.set 0 "100005" []).1

/-- C1: for a school in the store with a valid unexpired non-empty cache
entry, get_school_intelligence with force_refresh false attaches the cached
starters and returns without a model call (count 0, cache unchanged); and,
starting from a cache miss, a successful generation followed by a second call
within the TTL window issues exactly one model call in total, the second call
ignoring its model oracle entirely and returning the same school with the
same starters. -/
theorem c1_cache_hit_idempotence :
    (∀ (svc : ServiceState) (now : ℚ) (mr : Except String RawResponse)
        (name : String) (school : School) (r : CacheRecord)
        (items : List ConversationStarter),
        svc.schoolsByName name = some school →
        svc.featureOn = true →
        svc.cache.enabled = true →
        svc.cache.entries (cacheKeyString school.urn) = some r →
        now - r.cached_at ≤ CACHE_TTL_HOURS →
        r.starters ≠ [] →
        parseStarters r.starters = some items →
        get_school_intelligence svc now mr name false
          = .ok (some { school with conversation_starters := items }, svc.cache, 0))
    ∧ (∀ (svc : ServiceState) (now₁ now₂ : ℚ) (mr mr₂ : Except String RawResponse)
        (name : String) (school : School),
        svc.schoolsByName name = some school →
        svc.featureOn = true →
        svc.cache.enabled = true →
        svc.cache.entries (cacheKeyString school.urn) = none →
        (ConversationChain.generate mr).conversation_starters ≠ [] →
        now₂ - now₁ ≤ CACHE_TTL_HOURS →
        ∃ (school₁ : School) (cache₁ : SimpleCache),
          get_school_intelligence svc now₁ mr name false
            = .ok (some school₁, cache₁, 1)
          ∧ get_school_intelligence { svc with cache := cache₁ } now₂ mr₂ name false
            = .ok (some school₁, cache₁, 0)) := by
  constructor
  · intro svc now mr name school r items hfind hfeat hen hr hfresh hne hparse
    exact get_school_intelligence_hit hfind hfeat
      (SimpleCache.get_entry hen hr hfresh) hne hparse
  · intro svc now₁ now₂ mr mr₂ name school hfind hfeat hen hmiss hne hfresh
    set g := (ConversationChain.generate mr).conversation_starters with hg
    refine ⟨{ school with conversation_starters := g },
            (svc.cache.set now₁ school.urn g).1, ?_, ?_⟩
    · exact get_school_intelligence_generates hfind hfeat
        (.inr (by rw [SimpleCache.get_missing hmiss now₁]; rfl))
    · have hsen : ((svc.cache.set now₁ school.urn g).1).enabled = true := by
        rw [SimpleCache.set_keeps_enabled, hen]
      have hget₂ : ((svc.cache.set now₁ school.urn g).1).get now₂ school.urn
          = some (g.map dumpStarter) :=
        SimpleCache.get_entry hsen
          (SimpleCache.set_entries_self hen now₁ school.urn g) hfresh
      have hne₂ : g.map dumpStarter ≠ [] := fun h => hne (List.map_eq_nil_iff.mp h)
      have hparse₂ : parseStarters (g.map dumpStarter) = some g :=
        parseStarters_map_dump (generate_bounds mr)
      exact @get_school_intelligence_hit
        { svc with cache := (svc.cache.set now₁ school.urn g).1 } now₂ mr₂ name school
        (g.map dumpStarter) g hfind hfeat hget₂ hne₂ hparse₂

/-- C1 witness: with a valid non-empty entry cached at time 0, the call at
time 1 returns the cached starter, leaves the cache unchanged and makes no
model call, whatever the oracle would answer. -/
theorem c1_cache_hit_idempotence_witness :
    get_school_intelligence cachedService 1 (.error "never invoked")
        "Thomas Coram Centre" false
      = .ok (some { sampleSchool with conversation_starters := [sampleStarter] },
             cachedService.cache, 0) := by
  refine c1_cache_hit_idempotence.1 cachedService 1 (.error "never invoked")
    "Thomas Coram Centre" sampleSchool ⟨"100005", 0, [dumpStarter sampleStarter]⟩
    [sampleStarter] rfl rfl rfl rfl (by norm_num [CACHE_TTL_HOURS]) (by decide)
    (by norm_num [parseStarters, parseStarter, dumpStarter, sampleStarter])

/-- C2 counterexample: with the sample school in the store, an empty enabled
cache and a failing model call, get_school_intelligence returns the school
with no starters and raises nothing, but a cache entry with an empty starters
list IS written for the urn of the school, contradicting the claim that no
cache entry is written on failure: before the call the key held none, after
it it holds a record. -/
theorem c2_counterexample :
    get_school_intelligence sampleService 0 (.error "GenerationFailed")
        "Thomas Coram Centre" false
      = .ok (some sampleSchool, c2FailCache, 1)
    ∧ sampleService.cache.entries (cacheKeyString "100005") = none
    ∧ c2FailCache.entries (cacheKeyString "100005") = some ⟨"100005", 0, []⟩ :=
  ⟨rfl, rfl, rfl⟩

/-- C2 amended: if the model call fails, get_school_intelligence returns the
school with an empty starters list and no exception escapes; however the
service still performs a cache write of the degraded empty result, so with
the cache enabled an entry with an empty starters list is recorded for the
urn of the school (later reads do not treat it as a hit, see C10). -/
theorem c2_degradation :
    ∀ (svc : ServiceState) (now : ℚ) (e : String) (name : String) (school : School),
      svc.schoolsByName name = some school →
      svc.featureOn = true →
      svc.cache.get now school.urn = none →
      get_school_intelligence svc now (.error e) name false
        = .ok (some { school with conversation_starters := [] },
               (svc.cache.set now school.urn []).1, 1)
      ∧ (svc.cache.enabled = true →
          ((svc.cache.set now school.urn []).1).entries (cacheKeyString school.urn)
            = some ⟨school.urn, now, []⟩) := by
  intro svc now e name school hfind hfeat hmiss
  constructor
  · have h := @get_school_intelligence_generates svc now (.error e) name school false
      hfind hfeat (.inr (by rw [hmiss]; rfl))
    simpa [ConversationChain.generate, errorResponse] using h
  · intro hen
    simpa using SimpleCache.set_entries_self hen now school.urn []

/-- C2 witness: the degraded return and the empty-entry write at the concrete
sample service. -/
theorem c2_degradation_witness :
    get_school_intelligence sampleService 0 (.error "boom") "Thomas Coram Centre" false
      = .ok (some { sampleSchool with conversation_starters := [] },
             (sampleService.cache.set 0 sampleSchool.urn []).1, 1) :=
  (c2_degradation sampleService 0 "boom" "Thomas Coram Centre" sampleSchool rfl rfl rfl).1

/-- C3 counterexample: a raw response whose starters array holds two valid
items and one malformed item (missing the required detail field) does NOT
yield the two valid items: the whole call degrades to the empty error
response with priority UNKNOWN. And a response whose top-level array is
absent does NOT fail the call: it yields a successful response with no items,
the given summary and the supplied priority. Both contradict the claim. -/
theorem c3_counterexample :
    ConversationChain.generate
        (.ok ⟨.items [sampleRawGood, sampleRawBad, sampleRawGood2],
              some "three items", some "HIGH"⟩)
      = errorResponse "ValidationError"
    ∧ (ConversationChain.generate
        (.ok ⟨.items [sampleRawGood, sampleRawBad, sampleRawGood2],
              some "three items", some "HIGH"⟩)).conversation_starters = []
    ∧ ConversationChain.generate (.ok ⟨.absent, some "no array", some "HIGH"⟩)
      = ⟨[], some "no array", .HIGH⟩ := by
  refine ⟨by decide, by decide, by decide⟩

/-- C3 amended: items are not dropped individually: any item failing
StarterItem validation degrades the whole call to the empty error response;
an absent top-level array is not a failure but yields a successful response
with an empty items list; a malformed (non-array) top-level value degrades
the call; and when every item validates, all items are returned. -/
theorem c3_amended :
    (∀ (l : List RawStarter) (sm pr : Option String),
        (∃ b ∈ l, parseStarter b = none) →
        ConversationChain.generate (.ok ⟨.items l, sm, pr⟩)
          = errorResponse "ValidationError")
    ∧ (∀ (sm pr : Option String) (p : Priority),
        parsePriority (pr.getD "MEDIUM") = some p →
        ConversationChain.generate (.ok ⟨.absent, sm, pr⟩) = ⟨[], sm, p⟩)
    ∧ (∀ (sm pr : Option String),
        ConversationChain.generate (.ok ⟨.malformed, sm, pr⟩)
          = errorResponse "TypeError: conversation_starters is not a list")
    ∧ (∀ (l : List RawStarter) (sm pr : Option String)
          (cs : List ConversationStarter) (p : Priority),
        parseStarters l = some cs →
        parsePriority (pr.getD "MEDIUM") = some p →
        ConversationChain.generate (.ok ⟨.items l, sm, pr⟩) = ⟨cs, sm, p⟩) := by
  refine ⟨?_, ?_, ?_, ?_⟩
  · rintro l sm pr ⟨b, hmem, hbad⟩
    simp [ConversationChain.generate, rawItemsOf, parseStarters_none_of_mem hmem hbad]
  · intro sm pr p hp
    simp [ConversationChain.generate, rawItemsOf, parseStarters, hp]
  · intro sm pr
    simp [ConversationChain.generate, rawItemsOf]
  · intro l sm pr cs p hcs hp
    simp [ConversationChain.generate, rawItemsOf, hcs, hp]

/-- C3 amended witness: one bad item degrades the whole call; an absent array
succeeds with no items and the default priority. -/
theorem c3_amended_witness :
    ConversationChain.generate (.ok ⟨.items [sampleRawBad], none, none⟩)
      = errorResponse "ValidationError"
    ∧ ConversationChain.generate (.ok ⟨.absent, some "s", none⟩)
      = ⟨[], some "s", .MEDIUM⟩ :=
  ⟨c3_amended.1 [sampleRawBad] none none ⟨sampleRawBad, by decide, by decide⟩,
   c3_amended.2.1 (some "s") none .MEDIUM (by decide)⟩

/-- C5 counterexample: a raw response that parses successfully (one valid
item, which the failure path can never return, and a preserved summary) but
explicitly carries sales_priority UNKNOWN yields a successful
GenerationResult whose priority is UNKNOWN, contradicting the claim that
UNKNOWN occurs only on failure. The same holds for the async variant. -/
theorem c5_counterexample :
    ConversationChain.generate
        (.ok ⟨.items [sampleRawGood], some "generated fine", some "UNKNOWN"⟩)
      = ⟨[sampleStarter], some "generated fine", .UNKNOWN⟩
    ∧ ConversationChain.agenerate
        (.ok ⟨.items [sampleRawGood], some "generated fine", some "UNKNOWN"⟩)
      = ⟨[sampleStarter], some "generated fine", .UNKNOWN⟩ := by
  refine ⟨by decide, by decide⟩

/-- C5 amended: the priority of every result of generate and agenerate is one
of the four literals; on a failed call it is UNKNOWN; and on a successful
call whose raw response omits sales_priority it defaults to MEDIUM — so
UNKNOWN arises on a successful call only when the response supplies the
literal UNKNOWN explicitly. -/
theorem c5_amended :
    (∀ mr : Except String RawResponse,
        ((ConversationChain.generate mr).sales_priority = .HIGH
          ∨ (ConversationChain.generate mr).sales_priority = .MEDIUM
          ∨ (ConversationChain.generate mr).sales_priority = .LOW
          ∨ (ConversationChain.generate mr).sales_priority = .UNKNOWN)
        ∧ ((ConversationChain.agenerate mr).sales_priority = .HIGH
          ∨ (ConversationChain.agenerate mr).sales_priority = .MEDIUM
          ∨ (ConversationChain.agenerate mr).sales_priority = .LOW
          ∨ (ConversationChain.agenerate mr).sales_priority = .UNKNOWN))
    ∧ (∀ e : String,
        (ConversationChain.generate (.error e)).sales_priority = .UNKNOWN
        ∧ (ConversationChain.agenerate (.error e)).sales_priority = .UNKNOWN)
    ∧ (∀ (l : List RawStarter) (sm : Option String) (cs : List ConversationStarter),
        parseStarters l = some cs →
        ConversationChain.generate (.ok ⟨.items l, sm, none⟩) = ⟨cs, sm, .MEDIUM⟩
        ∧ ConversationChain.agenerate (.ok ⟨.items l, sm, none⟩) = ⟨cs, sm, .MEDIUM⟩) := by
  have hp : ∀ p : Priority, p = .HIGH ∨ p = .MEDIUM ∨ p = .LOW ∨ p = .UNKNOWN := by
    intro p
    cases p <;> simp
  have hm : parsePriority "MEDIUM" = some .MEDIUM := by decide
  refine ⟨fun mr => ⟨hp _, hp _⟩, fun e => ⟨rfl, rfl⟩, fun l sm cs hcs => ?_⟩
  constructor <;>
    simp [ConversationChain.generate, ConversationChain.agenerate, rawItemsOf, hcs, hm]

/-- C5 amended witness: a successful empty parse defaults to MEDIUM and a
failed call yields UNKNOWN. -/
theorem c5_amended_witness :
    ConversationChain.generate (.ok ⟨.items [], none, none⟩) = ⟨[], none, .MEDIUM⟩
    ∧ (ConversationChain.generate (.error "boom")).sales_priority = .UNKNOWN :=
  ⟨(c5_amended.2.2 [] none [] rfl).1, (c5_amended.2.1 "boom").1⟩

/-- C6: with the school in the store, the feature on and the cache enabled,
force_refresh true invokes the model (count 1) for every cache state,
including one holding a valid unexpired entry, and the resulting cache holds
a freshly timestamped record with the generated starters at the key of the
urn of the school, overwriting whatever was there. -/
theorem c6_force_refresh :
    ∀ (svc : ServiceState) (now : ℚ) (mr : Except String RawResponse)
      (name : String) (school : School),
      svc.schoolsByName name = some school →
      svc.featureOn = true →
      svc.cache.enabled = true →
      get_school_intelligence svc now mr name true
        = .ok (some { school with
                conversation_starters := (ConversationChain.generate mr).conversation_starters },
               (svc.cache.set now school.urn
                 (ConversationChain.generate mr).conversation_starters).1, 1)
      ∧ ((svc.cache.set now school.urn
            (ConversationChain.generate mr).conversation_starters).1).entries
            (cacheKeyString school.urn)
          = some ⟨school.urn, now,
                  (ConversationChain.generate mr).conversation_starters.map dumpStarter⟩ := by
  intro svc now mr name school hfind hfeat hen
  exact ⟨get_school_intelligence_generates hfind hfeat (.inl rfl),
         SimpleCache.set_entries_self hen now school.urn _⟩

/-- C6 witness: forced refresh on the service whose cache already holds a
valid unexpired entry for the school still invokes the model and overwrites
the entry with the fresh result. -/
theorem c6_force_refresh_witness :
    get_school_intelligence cachedService 1
        (.ok ⟨.items [sampleRawGood2], some "fresh", some "HIGH"⟩)
        "Thomas Coram Centre" true
      = .ok (some { sampleSchool with
              conversation_starters :=
                (ConversationChain.generate
                  (.ok ⟨.items [sampleRawGood2], some "fresh", some "HIGH"⟩)).conversation_starters },
             (cachedService.cache.set 1 sampleSchool.urn
               (ConversationChain.generate
                 (.ok ⟨.items [sampleRawGood2], some "fresh", some "HIGH"⟩)).conversation_starters).1,
             1) :=
  (c6_force_refresh cachedService 1
    (.ok ⟨.items [sampleRawGood2], some "fresh", some "HIGH"⟩)
    "Thomas Coram Centre" sampleSchool rfl rfl rfl).1

/-- C10: a valid unexpired cache entry whose stored starters list is empty is
not treated as a hit: get_school_intelligence with force_refresh false
proceeds to invoke the model (count 1) and overwrites the entry, so a cached
empty generation never suppresses later model calls. -/
theorem c10_empty_entry_not_hit :
    ∀ (svc : ServiceState) (now : ℚ) (mr : Except String RawResponse)
      (name : String) (school : School) (r : CacheRecord),
      svc.schoolsByName name = some school →
      svc.featureOn = true →
      svc.cache.enabled = true →
      svc.cache.entries (cacheKeyString school.urn) = some r →
      r.starters = [] →
      now - r.cached_at ≤ CACHE_TTL_HOURS →
      get_school_intelligence svc now mr name false
        = .ok (some { school with
                conversation_starters := (ConversationChain.generate mr).conversation_starters },
               (svc.cache.set now school.urn
                 (ConversationChain.generate mr).conversation_starters).1, 1) := by
  intro svc now mr name school r hfind hfeat hen hr hempty hfresh
  refine get_school_intelligence_generates hfind hfeat (.inr ?_)
  rw [SimpleCache.get_entry hen hr hfresh, hempty]
  rfl

/-- C10 witness: the service whose cache holds a valid empty-list entry for
the sample school calls the model and returns the freshly generated starter. -/
theorem c10_empty_entry_not_hit_witness :
    get_school_intelligence emptyEntryService 1
        (.ok ⟨.items [sampleRawGood], some "fresh", some "HIGH"⟩)
        "Thomas Coram Centre" false
      = .ok (some { sampleSchool with
              conversation_starters :=
                (ConversationChain.generate
                  (.ok ⟨.items [sampleRawGood], some "fresh", some "HIGH"⟩)).conversation_starters },
             (emptyEntryService.cache.set 1 sampleSchool.urn
               (ConversationChain.generate
                 (.ok ⟨.items [sampleRawGood], some "fresh", some "HIGH"⟩)).conversation_starters).1,
             1) :=
  c10_empty_entry_not_hit emptyEntryService 1
    (.ok ⟨.items [sampleRawGood], some "fresh", some "HIGH"⟩)
    "Thomas Coram Centre" sampleSchool ⟨"100005", 0, []⟩ rfl rfl rfl rfl rfl
    (by norm_num [CACHE_TTL_HOURS])

end SchoolIntel
